import Mathlib

/-
Shallow embedding of `zebra/mixins.py` (django-zebra).

Python values that appear in the mixins are modelled by `PyVal`:
plain values, string-keyed dictionaries, attribute-bearing objects,
and zero-argument callables.  A callable carries a `tag` identifying
which function it is (e.g. the SDK method reached by a dotted path)
and the value it returns when invoked; this matches the spec's
"zero-argument callable returning V" host contract.

A host object is a finite map of instance attributes.  The Stripe
module's process-wide configuration is a single `api_key` slot
(`Sdk`).  Remote SDK calls and configuration writes are recorded as an
`Effect` trace; fallible attribute access returns `Except PyErr`.
-/

inductive PyVal where
  | none
  | str (s : String)
  | bool (b : Bool)
  | int (n : Int)
  | dict (kvs : List (String × PyVal))
  | obj (attrs : List (String × PyVal))
  | fn (tag : String) (result : PyVal)

/-- Python truthiness of a modelled value (`if v:`). -/
def PyVal.truthy : PyVal → Bool
  | PyVal.none => false
  | PyVal.str s => s != ""
  | PyVal.bool b => b
  | PyVal.int n => n != 0
  | PyVal.dict kvs => !kvs.isEmpty
  | PyVal.obj _ => true
  | PyVal.fn _ _ => true

/-- Python `callable(v)` on a modelled value. -/
def PyVal.callable : PyVal → Bool
  | PyVal.fn _ _ => true
  | _ => false

/-- Invoking a modelled zero-argument callable; identity on non-callables
(only ever used under a `callable` guard, mirroring the source). -/
def PyVal.call0 : PyVal → PyVal
  | PyVal.fn _ r => r
  | v => v

/-- Attribute access on a modelled value (`getattr(v, name)`), `Option.none`
when the value has no such attribute. -/
def PyVal.getattrP : PyVal → String → Option PyVal
  | PyVal.obj attrs, name => attrs.lookup name
  | _, _ => Option.none

/-- The mapping passed as `**kwargs`: the entries of a dict, nothing else. -/
def PyVal.asKwargs : PyVal → List (String × PyVal)
  | PyVal.dict kvs => kvs
  | _ => []

/-- A host object: its instance attributes. -/
structure Host where
  attrs : List (String × PyVal)

/-- Python `hasattr(host, a)` for a plain host object. -/
def Host.hasattr (h : Host) (a : String) : Bool :=
  (h.attrs.lookup a).isSome

/-- Python `getattr(host, a)` for a plain host object, only used under a
`hasattr` guard in the source. -/
def Host.getattrH (h : Host) (a : String) : PyVal :=
  (h.attrs.lookup a).getD PyVal.none

/-- The Stripe module's process-wide configuration: the global `api_key`. -/
structure Sdk where
  api_key : Option PyVal

/-- Observable remote/global actions performed by the mixins: assigning the
global API key, a `<Resource>.retrieve(id)` SDK call, and a dynamically
dispatched call of the callable `tag` with keyword arguments. -/
inductive Effect where
  | setApiKey (key : PyVal)
  | retrieve (resource : String) (id : PyVal)
  | call (tag : String) (kwargs : List (String × PyVal))

/-- Python `AttributeError` raised while resolving an attribute name. -/
inductive PyErr where
  | attributeError (name : String)
deriving DecidableEq

/-- Embedding of `_get_attr_value(instance, attr, default=None)`
(mixins.py lines 8-37): the attribute's value if present, invoked if
callable, else the supplied default. -/
def _get_attr_value (inst : Host) (attr : String) (default : PyVal) : PyVal :=
  let value := default
  if inst.hasattr attr then
    let value := inst.getattrH attr
    if value.callable then value.call0 else value
  else value

/-- State-passing form of `_get_attr_value`: the host is threaded through
every step of the source (which contains no attribute assignment), so the
function also returns the host it finishes with. -/
def _get_attr_value_st (inst : Host) (attr : String) (default : PyVal) :
    PyVal × Host :=
  let value := default
  if inst.hasattr attr then
    let value := inst.getattrH attr
    if value.callable then (value.call0, inst) else (value, inst)
  else (value, inst)

/-- Embedding of `StripeMixin._get_stripe` (mixins.py lines 77-81): if the
host exposes `stripe_api_key`, assign its resolved value to the module's
global `api_key`, then return the module.  The returned `Sdk` is the
module's configuration after the call; the trace records the write. -/
def _get_stripe (self : Host) (sdk : Sdk) : Sdk × List Effect :=
  if self.hasattr "stripe_api_key" then
    let k := _get_attr_value self "stripe_api_key" PyVal.none
    ({ api_key := some k }, [Effect.setApiKey k])
  else (sdk, [])

/-- Embedding of `StripeCustomerMixin._get_stripe_customer` (mixins.py
lines 93-96): `self.stripe.Customer.retrieve(_get_attr_value(self,
'stripe_customer_id'))`.  Modelled at the composed (`ZebraMixin`) level,
where the `stripe` property resolves to `StripeMixin._get_stripe`. -/
def _get_stripe_customer (self : Host) (sdk : Sdk) : Sdk × List Effect :=
  let r := _get_stripe self sdk
  (r.1, r.2 ++
    [Effect.retrieve "Customer" (_get_attr_value self "stripe_customer_id" PyVal.none)])

/-- Embedding of `StripeSubscriptionMixin._get_stripe_subscription`
(mixins.py lines 108-114): resolve `stripe_customer` off the host, read
its `subscription` attribute if present, else `None`.  The source makes
no SDK call of its own, so the effect trace it produces is empty. -/
def _get_stripe_subscription (self : Host) : PyVal × List Effect :=
  let subscription := PyVal.none
  let customer := _get_attr_value self "stripe_customer" PyVal.none
  let subscription :=
    if (customer.getattrP "subscription").isSome then
      (customer.getattrP "subscription").getD PyVal.none
    else subscription
  (subscription, [])

/-- Embedding of `StripePlanMixin._get_stripe_plan` (mixins.py lines
126-128): `stripe.Plan.retrieve(...)` on the module directly (not via the
`stripe` property), so the global configuration is not touched. -/
def _get_stripe_plan (self : Host) (sdk : Sdk) : Sdk × List Effect :=
  (sdk, [Effect.retrieve "Plan" (_get_attr_value self "stripe_plan_id" PyVal.none)])

namespace StripeInvoiceMixin

/-- Embedding of `StripeInvoiceMixin._get_stripe_invoice` (mixins.py lines
140-143): `stripe.Invoice.retrieve(_get_attr_value(self,
'stripe_invoice_id'))` on the module directly. -/
def _get_stripe_invoice (self : Host) (sdk : Sdk) : Sdk × List Effect :=
  (sdk, [Effect.retrieve "Invoice" (_get_attr_value self "stripe_invoice_id" PyVal.none)])

end StripeInvoiceMixin

namespace StripeInvoiceItemMixin

/-- Embedding of `StripeInvoiceItemMixin._get_stripe_invoice` (mixins.py
lines 155-158): as written in the source, it calls
`stripe.Invoice.retrieve` (the Invoice resource, not an InvoiceItem
resource) with the resolved `stripe_invoice_item_id`, and is exposed as
the property `stripe_invoice`. -/
def _get_stripe_invoice (self : Host) (sdk : Sdk) : Sdk × List Effect :=
  (sdk, [Effect.retrieve "Invoice" (_get_attr_value self "stripe_invoice_item_id" PyVal.none)])

end StripeInvoiceItemMixin

/-- Embedding of `StripeChargeMixin._get_stripe_charge` (mixins.py lines
170-172): `stripe.Charge.retrieve(...)` on the module directly. -/
def _get_stripe_charge (self : Host) (sdk : Sdk) : Sdk × List Effect :=
  (sdk, [Effect.retrieve "Charge" (_get_attr_value self "stripe_charge_id" PyVal.none)])

/-- Attribute lookup on a `StripeSyncMixin` instance: instance attributes
first, then the class attributes defined on the mixin (mixins.py lines
55-59): `stripe_sync_enabled = False`, `stripe_sync_kwargs = {}`,
`stripe_sync_method = ''`, and the bound method `stripe_sync` itself
(a callable, hence truthy). -/
def StripeSyncMixin.getattr (self : Host) (name : String) : Option PyVal :=
  match self.attrs.lookup name with
  | some v => some v
  | Option.none =>
      if name = "stripe_sync" then some (PyVal.fn "StripeSyncMixin.stripe_sync" PyVal.none)
      else if name = "stripe_sync_enabled" then some (PyVal.bool false)
      else if name = "stripe_sync_kwargs" then some (PyVal.dict [])
      else if name = "stripe_sync_method" then some (PyVal.str "")
      else Option.none

/-- Walking a dotted attribute path: `for method_part in parts:
stripe_method = getattr(stripe_method, method_part)`, raising
`AttributeError` on a missing part. -/
def walkPath : PyVal → List String → Except PyErr PyVal
  | v, [] => Except.ok v
  | v, p :: rest =>
      match v.getattrP p with
      | some v2 => walkPath v2 rest
      | Option.none => Except.error (PyErr.attributeError p)

/-- Embedding of `StripeSyncMixin.stripe_sync` (mixins.py lines 59-67),
exactly as written in the source: the guard reads `self.stripe_sync`
(the bound method itself) rather than `stripe_sync_enabled`, and the
branch body reads `self.stripe_method` (an attribute the mixin never
defines) rather than `stripe_sync_method`.  Returns the trace of remote
calls performed, or the `AttributeError` raised. -/
def stripe_sync (self : Host) : Except PyErr (List Effect) :=
  let syncAttr := (StripeSyncMixin.getattr self "stripe_sync").getD PyVal.none
  let kwargsAttr := (StripeSyncMixin.getattr self "stripe_sync_kwargs").getD PyVal.none
  let methodAttr := (StripeSyncMixin.getattr self "stripe_sync_method").getD PyVal.none
  if syncAttr.truthy && kwargsAttr.truthy && methodAttr.truthy then
    match StripeSyncMixin.getattr self "stripe_method" with
    | Option.none => Except.error (PyErr.attributeError "stripe_method")
    | some m =>
        let resolved : Except PyErr PyVal :=
          if m.callable then Except.ok m
          else
            match StripeSyncMixin.getattr self "stripe" with
            | Option.none => Except.error (PyErr.attributeError "stripe")
            | some s =>
                match methodAttr with
                | PyVal.str ms => walkPath s (ms.splitOn ".")
                | _ => Except.error (PyErr.attributeError "split")
        match resolved with
        | Except.error e => Except.error e
        | Except.ok sm =>
            if sm.callable then
              match sm with
              | PyVal.fn tag _ => Except.ok [Effect.call tag kwargsAttr.asKwargs]
              | _ => Except.ok []
            else Except.ok []
  else Except.ok []

/-- The distinct accessor implementations contributed by the mixins; used
to model Python attribute resolution on the composed `ZebraMixin`. -/
inductive Accessor where
  | getStripe
  | getStripeCustomer
  | getStripeSubscription
  | getStripePlan
  | invoiceGetStripeInvoice
  | invoiceItemGetStripeInvoice
  | getStripeCharge
deriving DecidableEq

/-- Properties defined by `StripeMixin` (mixins.py line 81). -/
def StripeMixin.classProps : List (String × Accessor) :=
  [("stripe", Accessor.getStripe)]

/-- Properties defined by `StripeCustomerMixin` (mixins.py line 96). -/
def StripeCustomerMixin.classProps : List (String × Accessor) :=
  [("stripe_customer", Accessor.getStripeCustomer)]

/-- Properties defined by `StripeSubscriptionMixin` (mixins.py line 114). -/
def StripeSubscriptionMixin.classProps : List (String × Accessor) :=
  [("stripe_subscription", Accessor.getStripeSubscription)]

/-- Properties defined by `StripePlanMixin` (mixins.py line 128). -/
def StripePlanMixin.classProps : List (String × Accessor) :=
  [("stripe_plan", Accessor.getStripePlan)]

/-- Properties defined by `StripeInvoiceMixin` (mixins.py line 143). -/
def StripeInvoiceMixin.classProps : List (String × Accessor) :=
  [("stripe_invoice", Accessor.invoiceGetStripeInvoice)]

/-- Properties defined by `StripeInvoiceItemMixin` (mixins.py line 158):
the property is named `stripe_invoice` in the source, not
`stripe_invoice_item`. -/
def StripeInvoiceItemMixin.classProps : List (String × Accessor) :=
  [("stripe_invoice", Accessor.invoiceItemGetStripeInvoice)]

/-- Properties defined by `StripeChargeMixin` (mixins.py line 172). -/
def StripeChargeMixin.classProps : List (String × Accessor) :=
  [("stripe_charge", Accessor.getStripeCharge)]

/-- The C3-linearization of `ZebraMixin(StripeMixin, StripeCustomerMixin,
StripeSubscriptionMixin, StripePlanMixin, StripeInvoiceMixin,
StripeInvoiceItemMixin, StripeChargeMixin)` (mixins.py lines 175-177):
each base is a direct subclass of `object`, so the MRO is the bases in
declaration order. -/
def ZebraMixin.mro : List (List (String × Accessor)) :=
  [StripeMixin.classProps, StripeCustomerMixin.classProps,
   StripeSubscriptionMixin.classProps, StripePlanMixin.classProps,
   StripeInvoiceMixin.classProps, StripeInvoiceItemMixin.classProps,
   StripeChargeMixin.classProps]

/-- Python attribute resolution for a property on `ZebraMixin`: the first
class in the MRO defining the name wins. -/
def ZebraMixin.getProp (name : String) : Option Accessor :=
  (ZebraMixin.mro.flatten).lookup name

/-- Claim C7: for every host lacking attribute `X` and every default value
`d`, `_get_attr_value(host, X, d)` returns `d` unchanged; instantiating
`d` with `PyVal.none` gives the no-default case. -/
theorem resolve_missing_returns_default (h : Host) (a : String) (d : PyVal)
    (hm : h.hasattr a = false) : _get_attr_value h a d = d := by
  unfold _get_attr_value
  simp [hm]

/-- Concrete instance of `resolve_missing_returns_default`: a host with no
attributes resolves `xyz` to the supplied default `False`. -/
theorem resolve_missing_returns_default_witness :
    (Host.mk []).hasattr "xyz" = false ∧
      _get_attr_value (Host.mk []) "xyz" (PyVal.bool false) = PyVal.bool false :=
  ⟨rfl, resolve_missing_returns_default (Host.mk []) "xyz" (PyVal.bool false) rfl⟩

/-- Claim C8: if the host's attribute `X` is a zero-argument callable
returning `v`, the resolver returns `v` (not the callable); if it is a
non-callable value, the resolver returns that raw value. -/
theorem resolve_calls_zero_arg_callable (h : Host) (a : String) (d : PyVal) :
    (∀ tag v, h.attrs.lookup a = some (PyVal.fn tag v) → _get_attr_value h a d = v) ∧
    (∀ w, h.attrs.lookup a = some w → w.callable = false → _get_attr_value h a d = w) := by
  constructor
  · intro tag v hg
    unfold _get_attr_value
    simp [Host.hasattr, Host.getattrH, hg, PyVal.callable, PyVal.call0]
  · intro w hg hc
    unfold _get_attr_value
    simp [Host.hasattr, Host.getattrH, hg, hc]

/-- Concrete instance of `resolve_calls_zero_arg_callable`, mirroring the
doctest in mixins.py: resolving the method `hi` yields the string it
returns, and resolving the plain value `bar` yields it raw. -/
theorem resolve_calls_zero_arg_callable_witness :
    _get_attr_value (Host.mk [("hi", PyVal.fn "Foo.hi" (PyVal.str "hi"))]) "hi" PyVal.none
        = PyVal.str "hi" ∧
      _get_attr_value (Host.mk [("bar", PyVal.str "baz")]) "bar" PyVal.none
        = PyVal.str "baz" :=
  ⟨(resolve_calls_zero_arg_callable (Host.mk [("hi", PyVal.fn "Foo.hi" (PyVal.str "hi"))])
      "hi" PyVal.none).1 "Foo.hi" (PyVal.str "hi") rfl,
   (resolve_calls_zero_arg_callable (Host.mk [("bar", PyVal.str "baz")])
      "bar" PyVal.none).2 (PyVal.str "baz") rfl rfl⟩

/-- Claim C9: the resolver never mutates the host — the host component of
the state-passing resolver is the input host, and its value component
agrees with `_get_attr_value`. -/
theorem resolver_never_mutates_host (h : Host) (a : String) (d : PyVal) :
    (_get_attr_value_st h a d).2 = h ∧
      (_get_attr_value_st h a d).1 = _get_attr_value h a d := by
  unfold _get_attr_value_st _get_attr_value
  by_cases hm : h.hasattr a
  · by_cases hc : (h.getattrH a).callable <;> simp [hm, hc]
  · simp [hm]

/-- Claim C5: `_get_stripe` assigns the resolved `stripe_api_key` to the
global configuration exactly when the host exposes that attribute; it does
so again on every request (no caching); when the attribute is absent the
configuration is returned completely unchanged. -/
theorem get_stripe_sets_key_iff_exposed (self : Host) (sdk : Sdk) :
    (self.hasattr "stripe_api_key" = true →
       _get_stripe self sdk =
         ({ api_key := some (_get_attr_value self "stripe_api_key" PyVal.none) },
          [Effect.setApiKey (_get_attr_value self "stripe_api_key" PyVal.none)])) ∧
    (self.hasattr "stripe_api_key" = true →
       (_get_stripe self (_get_stripe self sdk).1).2 =
         [Effect.setApiKey (_get_attr_value self "stripe_api_key" PyVal.none)]) ∧
    (self.hasattr "stripe_api_key" = false → _get_stripe self sdk = (sdk, [])) := by
  refine ⟨fun hm => ?_, fun hm => ?_, fun hm => ?_⟩ <;> simp [_get_stripe, hm]

/-- Concrete instance of `get_stripe_sets_key_iff_exposed`: a host exposing
`stripe_api_key` writes it to the configuration, a host without leaves a
pre-existing configuration untouched. -/
theorem get_stripe_sets_key_iff_exposed_witness :
    _get_stripe (Host.mk [("stripe_api_key", PyVal.str "sk_test")]) (Sdk.mk Option.none) =
        (Sdk.mk (some (PyVal.str "sk_test")), [Effect.setApiKey (PyVal.str "sk_test")]) ∧
      _get_stripe (Host.mk []) (Sdk.mk (some (PyVal.str "old"))) =
        (Sdk.mk (some (PyVal.str "old")), []) :=
  ⟨((get_stripe_sets_key_iff_exposed (Host.mk [("stripe_api_key", PyVal.str "sk_test")])
      (Sdk.mk Option.none)).1 rfl).trans rfl,
   (get_stripe_sets_key_iff_exposed (Host.mk [])
      (Sdk.mk (some (PyVal.str "old")))).2.2 rfl⟩

/-- Claim C6: the subscription accessor returns `None` when the resolved
customer has no `subscription` attribute and that attribute's value
otherwise, and its own effect trace is empty (no direct SDK call beyond
resolving the customer). -/
theorem stripe_subscription_reads_subscription_attr (self : Host) :
    ((_get_attr_value self "stripe_customer" PyVal.none).getattrP "subscription" = Option.none →
        _get_stripe_subscription self = (PyVal.none, [])) ∧
    (∀ v, (_get_attr_value self "stripe_customer" PyVal.none).getattrP "subscription" = some v →
        _get_stripe_subscription self = (v, [])) := by
  constructor
  · intro hs
    unfold _get_stripe_subscription
    simp [hs]
  · intro v hs
    unfold _get_stripe_subscription
    simp [hs]

/-- Concrete instance of `stripe_subscription_reads_subscription_attr`: a
customer object with a `subscription` field yields that field, one without
yields `None`. -/
theorem stripe_subscription_reads_subscription_attr_witness :
    _get_stripe_subscription
        (Host.mk [("stripe_customer", PyVal.obj [("subscription", PyVal.str "sub_1")])]) =
      (PyVal.str "sub_1", []) ∧
    _get_stripe_subscription (Host.mk [("stripe_customer", PyVal.obj [])]) =
      (PyVal.none, []) :=
  ⟨(stripe_subscription_reads_subscription_attr
      (Host.mk [("stripe_customer", PyVal.obj [("subscription", PyVal.str "sub_1")])])).2
      (PyVal.str "sub_1") rfl,
   (stripe_subscription_reads_subscription_attr
      (Host.mk [("stripe_customer", PyVal.obj [])])).1 rfl⟩

/-- Claim C10: the plan, invoice, invoice-item and charge accessors call the
module-level retrieve operations directly — for every host (even one
exposing `stripe_api_key`) their trace is a single retrieve and the global
configuration is returned unchanged — while the customer accessor goes
through the `stripe` property and therefore does set the key when the host
exposes one. -/
theorem only_customer_accessor_sets_api_key (self : Host) (sdk : Sdk) :
    _get_stripe_plan self sdk =
      (sdk, [Effect.retrieve "Plan" (_get_attr_value self "stripe_plan_id" PyVal.none)]) ∧
    StripeInvoiceMixin._get_stripe_invoice self sdk =
      (sdk, [Effect.retrieve "Invoice" (_get_attr_value self "stripe_invoice_id" PyVal.none)]) ∧
    StripeInvoiceItemMixin._get_stripe_invoice self sdk =
      (sdk, [Effect.retrieve "Invoice" (_get_attr_value self "stripe_invoice_item_id" PyVal.none)]) ∧
    _get_stripe_charge self sdk =
      (sdk, [Effect.retrieve "Charge" (_get_attr_value self "stripe_charge_id" PyVal.none)]) ∧
    (self.hasattr "stripe_api_key" = true →
       _get_stripe_customer self sdk =
         ({ api_key := some (_get_attr_value self "stripe_api_key" PyVal.none) },
          [Effect.setApiKey (_get_attr_value self "stripe_api_key" PyVal.none),
           Effect.retrieve "Customer" (_get_attr_value self "stripe_customer_id" PyVal.none)])) := by
  refine ⟨rfl, rfl, rfl, rfl, fun hm => ?_⟩
  simp [_get_stripe_customer, _get_stripe, hm]

/-- Concrete instance of `only_customer_accessor_sets_api_key`: on a host
exposing `stripe_api_key`, the customer accessor sets the key before the
retrieve, while the plan accessor on the same host performs only the
retrieve and leaves the configuration alone. -/
theorem only_customer_accessor_sets_api_key_witness :
    _get_stripe_customer
        (Host.mk [("stripe_api_key", PyVal.str "sk"), ("stripe_customer_id", PyVal.str "cus_1")])
        (Sdk.mk Option.none) =
      (Sdk.mk (some (PyVal.str "sk")),
       [Effect.setApiKey (PyVal.str "sk"), Effect.retrieve "Customer" (PyVal.str "cus_1")]) ∧
    _get_stripe_plan
        (Host.mk [("stripe_api_key", PyVal.str "sk"), ("stripe_plan_id", PyVal.str "pl_1")])
        (Sdk.mk Option.none) =
      (Sdk.mk Option.none, [Effect.retrieve "Plan" (PyVal.str "pl_1")]) :=
  ⟨((only_customer_accessor_sets_api_key
      (Host.mk [("stripe_api_key", PyVal.str "sk"), ("stripe_customer_id", PyVal.str "cus_1")])
      (Sdk.mk Option.none)).2.2.2.2 rfl).trans rfl,
   ((only_customer_accessor_sets_api_key
      (Host.mk [("stripe_api_key", PyVal.str "sk"), ("stripe_plan_id", PyVal.str "pl_1")])
      (Sdk.mk Option.none)).1).trans rfl⟩

/-- Claim C1 (evaluation at the failing input): the guard of `stripe_sync`
reads `self.stripe_sync` — the bound method, which is always truthy —
instead of `stripe_sync_enabled`, so a host with syncing disabled but
non-empty kwargs and a method name enters the branch and raises
`AttributeError` on the undefined `self.stripe_method`; it is not a silent
no-op.  With empty kwargs or an empty method name the guard does
short-circuit and no call is made. -/
theorem stripe_sync_disabled_not_silent :
    stripe_sync (Host.mk
        [("stripe_sync_enabled", PyVal.bool false),
         ("stripe_sync_kwargs", PyVal.dict [("email", PyVal.str "a@b.com")]),
         ("stripe_sync_method", PyVal.str "Customer.create")]) =
      Except.error (PyErr.attributeError "stripe_method") ∧
    stripe_sync (Host.mk
        [("stripe_sync_enabled", PyVal.bool true),
         ("stripe_sync_method", PyVal.str "Customer.create")]) = Except.ok [] ∧
    stripe_sync (Host.mk
        [("stripe_sync_enabled", PyVal.bool true),
         ("stripe_sync_kwargs", PyVal.dict [("email", PyVal.str "a@b.com")])]) =
      Except.ok [] :=
  ⟨rfl, rfl, rfl⟩

/-- Claim C3 (evaluation at the failing input): on a fully configured host
— syncing enabled, method `"Customer.create"`, kwargs
`{"email": "a@b.com"}`, SDK handle exposing `Customer.create` — the body
of `stripe_sync` reads `self.stripe_method` (an attribute neither the
mixin nor the host defines; the docstring and class attribute are named
`stripe_sync_method`), so it raises `AttributeError` and never invokes
the SDK's Customer-create operation. -/
theorem stripe_sync_enabled_raises_attribute_error :
    stripe_sync (Host.mk
        [("stripe_sync_enabled", PyVal.bool true),
         ("stripe_sync_kwargs", PyVal.dict [("email", PyVal.str "a@b.com")]),
         ("stripe_sync_method", PyVal.str "Customer.create"),
         ("stripe", PyVal.obj
            [("Customer", PyVal.obj [("create", PyVal.fn "Customer.create" PyVal.none)])])]) =
      Except.error (PyErr.attributeError "stripe_method") :=
  rfl

/-- Claim C2 (evaluation at the failing input): the invoice-item accessor,
as written at mixins.py lines 155-158, calls the Invoice resource's
retrieve operation — not an InvoiceItem retrieve — although it does pass
the resolved `stripe_invoice_item_id`. -/
theorem invoice_item_accessor_retrieves_invoice :
    StripeInvoiceItemMixin._get_stripe_invoice
        (Host.mk [("stripe_invoice_item_id", PyVal.str "ii_1")]) (Sdk.mk Option.none) =
      (Sdk.mk Option.none, [Effect.retrieve "Invoice" (PyVal.str "ii_1")]) :=
  rfl

/-- Claim C4 (evaluation at the failing input): attribute resolution on the
composed `ZebraMixin` finds no `stripe_invoice_item` property at all —
`StripeInvoiceItemMixin` names its property `stripe_invoice`, which the
MRO resolves to `StripeInvoiceMixin`'s accessor — while the other six
accessors are exposed as expected. -/
theorem zebra_mixin_lacks_invoice_item_accessor :
    ZebraMixin.getProp "stripe_invoice_item" = Option.none ∧
    ZebraMixin.getProp "stripe_invoice" = some Accessor.invoiceGetStripeInvoice ∧
    ZebraMixin.getProp "stripe" = some Accessor.getStripe ∧
    ZebraMixin.getProp "stripe_customer" = some Accessor.getStripeCustomer ∧
    ZebraMixin.getProp "stripe_subscription" = some Accessor.getStripeSubscription ∧
    ZebraMixin.getProp "stripe_plan" = some Accessor.getStripePlan ∧
    ZebraMixin.getProp "stripe_charge" = some Accessor.getStripeCharge :=
  ⟨rfl, rfl, rfl, rfl, rfl, rfl, rfl⟩
